import Mathlib

/-!
Verification of the deliberation-pipeline core of the polymarket-intelligence
repository: the quantitative analysis toolkit, the trader-flow aggregation and
the multi-stage debate pipeline (src/backend/agents/debate.py and
src/backend/routes/debate.py), shallowly embedded in Lean.

Modelling conventions:
* Python floats are modelled as rationals (ℚ); the one place the code takes a
  genuine square root (volatility, theta) is modelled over ℝ.
* Python's builtin round (round half to even) is modelled by pyRound below.
* Python dicts whose key sets differ between branches are modelled as
  structures with Option-valued fields (a missing key is none).
* External calls (LLM inference, web search) are modelled by an Oracle record
  supplying, per call site, either a response string or a raised exception.
-/

/-- Rounding to the nearest integer, ties to even: the semantics of Python's
builtin round on exact values. -/
def pyRound {α : Type} [LinearOrderedField α] [FloorRing α] (x : α) : ℤ :=
  let f := ⌊x⌋
  let r := x - (f : α)
  if r < 1/2 then f
  else if 1/2 < r then f + 1
  else if f % 2 = 0 then f else f + 1

/-- Python round(x, 1) on exact rationals. -/
def round1 (x : ℚ) : ℚ := (pyRound (x * 10) : ℚ) / 10

/-- Python round(x, 2) on exact rationals. -/
def round2 (x : ℚ) : ℚ := (pyRound (x * 100) : ℚ) / 100

/-- Python round(x, 3) on exact rationals. -/
def round3 (x : ℚ) : ℚ := (pyRound (x * 1000) : ℚ) / 1000

/-- Python round(x, 3) on reals (used where the source feeds math.sqrt results
into round). -/
noncomputable def round3R (x : ℝ) : ℝ := (pyRound (x * 1000) : ℝ) / 1000

theorem floor_le_pyRound {α : Type} [LinearOrderedField α] [FloorRing α]
    (x : α) : ⌊x⌋ ≤ pyRound x := by
  unfold pyRound
  dsimp only
  split_ifs <;> omega

theorem pyRound_le_floor_add_one {α : Type} [LinearOrderedField α] [FloorRing α]
    (x : α) : pyRound x ≤ ⌊x⌋ + 1 := by
  unfold pyRound
  dsimp only
  split_ifs <;> omega

theorem pyRound_nonneg {α : Type} [LinearOrderedField α] [FloorRing α]
    {x : α} (h : 0 ≤ x) : 0 ≤ pyRound x :=
  le_trans (Int.floor_nonneg.mpr h) (floor_le_pyRound x)

theorem intCast_le_pyRound {α : Type} [LinearOrderedField α] [FloorRing α]
    {m : ℤ} {x : α} (h : (m : α) ≤ x) : m ≤ pyRound x :=
  le_trans (Int.le_floor.mpr h) (floor_le_pyRound x)

theorem pyRound_le_intCast {α : Type} [LinearOrderedField α] [FloorRing α]
    {m : ℤ} {x : α} (h : x ≤ (m : α)) : pyRound x ≤ m := by
  have hfl : ⌊x⌋ ≤ m := by
    have h2 := Int.floor_le_floor h
    simpa using h2
  unfold pyRound
  dsimp only
  split_ifs with h1 h2 h3
  · exact hfl
  · rcases lt_or_eq_of_le hfl with hlt | heq
    · omega
    · exfalso
      have hx : x - (⌊x⌋ : α) ≥ 1/2 := le_of_not_lt h1
      have : ((⌊x⌋ : ℤ) : α) ≤ x := Int.floor_le x
      rw [heq] at hx
      have : (m : α) + 1/2 ≤ x := by linarith
      have h01 : (0 : α) < 1/2 := by norm_num
      linarith
  · exact hfl
  · rcases lt_or_eq_of_le hfl with hlt | heq
    · omega
    · exfalso
      have hx : x - (⌊x⌋ : α) ≥ 1/2 := le_of_not_lt h1
      rw [heq] at hx
      linarith

theorem round2_nonneg {x : ℚ} (h : 0 ≤ x) : 0 ≤ round2 x := by
  unfold round2
  have h1 : (0 : ℤ) ≤ pyRound (x * 100) := pyRound_nonneg (by positivity)
  have h2 : (0 : ℚ) ≤ (pyRound (x * 100) : ℚ) := by exact_mod_cast h1
  linarith

theorem round2_le_intCast {x : ℚ} {m : ℤ} (h : x ≤ (m : ℚ)) : round2 x ≤ (m : ℚ) := by
  unfold round2
  have h1 : pyRound (x * 100) ≤ 100 * m := by
    apply pyRound_le_intCast
    push_cast
    linarith
  have h2 : (pyRound (x * 100) : ℚ) ≤ ((100 * m : ℤ) : ℚ) := by exact_mod_cast h1
  push_cast at h2
  linarith

theorem round2_zero : round2 0 = 0 := by
  unfold round2 pyRound
  norm_num

/-! ## Quantitative toolkit (src/backend/agents/debate.py, lines 56-459) -/

/-- Result of calculate_expected_value. -/
structure EVResult where
  yes_ev : ℚ
  no_ev : ℚ
  edge : ℚ
  recommendation : String
deriving DecidableEq

/-- calculate_expected_value (debate.py lines 56-98). -/
def calculate_expected_value (yes_price estimated_prob : ℚ) : EVResult :=
  let price := yes_price / 100
  let prob := estimated_prob / 100
  let yes_profit := if 0 < price then (1 - price) / price else 0
  let yes_ev := prob * yes_profit - (1 - prob) * 1
  let no_price := 1 - price
  let no_profit := if 0 < no_price then (1 - no_price) / no_price else 0
  let no_ev := (1 - prob) * no_profit - prob * 1
  let recommendation :=
    if 1/20 < yes_ev then "BUY YES (+EV)"
    else if 1/20 < no_ev then "BUY NO (+EV)"
    else if 0 < yes_ev then "Slight YES edge"
    else if 0 < no_ev then "Slight NO edge"
    else "Market is fairly priced"
  ⟨round2 (yes_ev * 100), round2 (no_ev * 100), round2 |yes_price - estimated_prob|,
    recommendation⟩

/-- Result of calculate_implied_probability. -/
structure ImpliedResult where
  implied_yes_prob : ℚ
  implied_no_prob : ℚ
  vig_percentage : ℚ
  breakeven_yes : ℚ
  breakeven_no : ℚ
deriving DecidableEq

/-- calculate_implied_probability (debate.py lines 101-128).  The source also
computes vig-adjusted true probabilities but does not return them. -/
def calculate_implied_probability (yes_price : ℚ) : ImpliedResult :=
  let yes_prob := yes_price / 100
  let no_prob := (100 - yes_price) / 100
  let total := yes_prob + no_prob
  let vig := (total - 1) * 100
  { implied_yes_prob := round2 yes_price
    implied_no_prob := round2 (100 - yes_price)
    vig_percentage := round3 vig
    breakeven_yes := round2 yes_price
    breakeven_no := round2 (100 - yes_price) }

/-- Result of calculate_kelly_criterion. -/
structure KellyResult where
  full_kelly : ℚ
  half_kelly : ℚ
  quarter_kelly : ℚ
  optimal_side : String
  recommendation : String
deriving DecidableEq

/-- The YES-side Kelly fraction (debate.py lines 148-153). -/
def kellyYes (yes_price estimated_prob : ℚ) : ℚ :=
  let price := yes_price / 100
  let prob := estimated_prob / 100
  if 0 < price ∧ price < 1 then
    let b := (1 - price) / price
    if 0 < b then (b * prob - (1 - prob)) / b else 0
  else 0

/-- The NO-side Kelly fraction (debate.py lines 155-161). -/
def kellyNo (yes_price estimated_prob : ℚ) : ℚ :=
  let price := yes_price / 100
  let prob := estimated_prob / 100
  let no_price := 1 - price
  if 0 < no_price ∧ no_price < 1 then
    let b := (1 - no_price) / no_price
    if 0 < b then (b * (1 - prob) - prob) / b else 0
  else 0

/-- Side selection (debate.py lines 163-172): the pre-clamp optimal fraction
and the chosen side. -/
def kellyPick (yes_price estimated_prob : ℚ) : ℚ × String :=
  let ky := kellyYes yes_price estimated_prob
  let kn := kellyNo yes_price estimated_prob
  if kn < ky ∧ 0 < ky then (ky, "YES")
  else if 0 < kn then (kn, "NO")
  else (0, "NONE")

/-- The clamped optimal Kelly fraction (debate.py line 175). -/
def optimalKelly (yes_price estimated_prob : ℚ) : ℚ :=
  max 0 (min 1 (kellyPick yes_price estimated_prob).1)

/-- calculate_kelly_criterion (debate.py lines 131-183). -/
def calculate_kelly_criterion (yes_price estimated_prob : ℚ) : KellyResult :=
  let k := optimalKelly yes_price estimated_prob
  let side := (kellyPick yes_price estimated_prob).2
  { full_kelly := round2 (k * 100)
    half_kelly := round2 (k * 50)
    quarter_kelly := round2 (k * 25)
    optimal_side := side
    recommendation :=
      if 1/100 < k then
        "Bet " ++ toString (round1 (k * 25)) ++ "%-" ++ toString (round1 (k * 50))
          ++ "% of bankroll on " ++ side
      else "No bet recommended (no edge)" }

/-- Result of compute_support_resistance.  The under-five-points sentinel dict
carries no period_low/period_high keys, hence the Option fields. -/
structure SRResult where
  support : Option ℚ
  resistance : Option ℚ
  period_low : Option ℚ
  period_high : Option ℚ
  current_position : String
deriving DecidableEq

/-- Python sorted on a price list. -/
def sortPrices (prices : List ℚ) : List ℚ :=
  prices.mergeSort (fun a b => a ≤ b)

/-- compute_support_resistance (debate.py lines 297-351).  Python's
int(n * 0.2) and int(n * 0.8) evaluate to the floors n / 5 and 4 * n / 5 for
every list length arising here. -/
def compute_support_resistance (prices : List ℚ) : SRResult :=
  if prices.length < 5 then
    ⟨none, none, none, none, "Insufficient data"⟩
  else
    let current := prices.getLast?.getD 0
    let low := prices.foldl min (prices.headI)
    let high := prices.foldl max (prices.headI)
    let sorted_prices := sortPrices prices
    let n := sorted_prices.length
    let support := sorted_prices.getD (n / 5) 0
    let resistance := sorted_prices.getD (4 * n / 5) 0
    let range_size := if support < resistance then resistance - support else 1
    let position_pct := (current - support) / range_size * 100
    let position :=
      if current ≤ support * (51/50) then
        "At support (" ++ toString (round1 support) ++ "%) - potential bounce zone"
      else if resistance * (49/50) ≤ current then
        "At resistance (" ++ toString (round1 resistance) ++ "%) - potential rejection zone"
      else if 70 < position_pct then
        "Upper range (" ++ toString (pyRound position_pct) ++ "%) - approaching resistance"
      else if position_pct < 30 then
        "Lower range (" ++ toString (pyRound position_pct) ++ "%) - approaching support"
      else
        "Mid-range (" ++ toString (pyRound position_pct) ++ "%)"
    ⟨some (round2 support), some (round2 resistance), some (round2 low),
      some (round2 high), position⟩

/-- C8: for every price in [0, 100], calculate_implied_probability reports
implied_yes_prob = round(price, 2), implied_no_prob = round(100 - price, 2),
and breakeven thresholds equal to those same rounded values. -/
theorem implied_probability_round_trip (p : ℚ) (h0 : 0 ≤ p) (h1 : p ≤ 100) :
    (calculate_implied_probability p).implied_yes_prob = round2 p
    ∧ (calculate_implied_probability p).implied_no_prob = round2 (100 - p)
    ∧ (calculate_implied_probability p).breakeven_yes = round2 p
    ∧ (calculate_implied_probability p).breakeven_no = round2 (100 - p) :=
  ⟨rfl, rfl, rfl, rfl⟩

theorem implied_probability_round_trip_witness :
    (0 : ℚ) ≤ 37 ∧ (37 : ℚ) ≤ 100
    ∧ ((calculate_implied_probability 37).implied_yes_prob = round2 37
        ∧ (calculate_implied_probability 37).implied_no_prob = round2 (100 - 37)
        ∧ (calculate_implied_probability 37).breakeven_yes = round2 37
        ∧ (calculate_implied_probability 37).breakeven_no = round2 (100 - 37)) :=
  ⟨by norm_num, by norm_num,
    implied_probability_round_trip 37 (by norm_num) (by norm_num)⟩

/-- C6: with at least five points, support and resistance are the 2-decimal
roundings of the sorted-list elements at indices floor(0.2 n) and
floor(0.8 n); with fewer than five points the sentinel with support and
resistance none and position "Insufficient data" is returned. -/
theorem support_resistance_percentiles (prices : List ℚ) :
    (5 ≤ prices.length →
      (compute_support_resistance prices).support
          = some (round2 ((sortPrices prices).getD (prices.length / 5) 0))
        ∧ (compute_support_resistance prices).resistance
          = some (round2 ((sortPrices prices).getD (4 * prices.length / 5) 0)))
    ∧ (prices.length < 5 →
        compute_support_resistance prices
          = ⟨none, none, none, none, "Insufficient data"⟩) := by
  constructor
  · intro h5
    have hn : ¬ prices.length < 5 := not_lt.mpr h5
    have hlen : (sortPrices prices).length = prices.length := by
      simp [sortPrices]
    constructor <;> simp [compute_support_resistance, hn, hlen]
  · intro h5
    simp [compute_support_resistance, h5]

theorem support_resistance_percentiles_witness :
    5 ≤ ([10, 30, 20, 50, 40, 70, 60, 90, 80, 100] : List ℚ).length
    ∧ (compute_support_resistance [10, 30, 20, 50, 40, 70, 60, 90, 80, 100]).support
        = some (round2 ((sortPrices [10, 30, 20, 50, 40, 70, 60, 90, 80, 100]).getD
            (([10, 30, 20, 50, 40, 70, 60, 90, 80, 100] : List ℚ).length / 5) 0))
    ∧ (compute_support_resistance [10, 30, 20, 50, 40, 70, 60, 90, 80, 100]).resistance
        = some (round2 ((sortPrices [10, 30, 20, 50, 40, 70, 60, 90, 80, 100]).getD
            (4 * ([10, 30, 20, 50, 40, 70, 60, 90, 80, 100] : List ℚ).length / 5) 0)) :=
  ⟨by norm_num,
    ((support_resistance_percentiles [10, 30, 20, 50, 40, 70, 60, 90, 80, 100]).1
      (by norm_num)).1,
    ((support_resistance_percentiles [10, 30, 20, 50, 40, 70, 60, 90, 80, 100]).1
      (by norm_num)).2⟩

/-- C5: the optimal Kelly fraction is clamped to [0, 1], so full/half/quarter
Kelly are the 2-decimal roundings of fraction times 100/50/25, all
non-negative and bounded; if neither side has a positive Kelly fraction the
side is NONE with fraction 0 and the no-bet advice; and a NONE side always
comes with full_kelly = 0. -/
theorem kelly_criterion_clamped (yp ep : ℚ) :
    (0 ≤ optimalKelly yp ep ∧ optimalKelly yp ep ≤ 1)
    ∧ (calculate_kelly_criterion yp ep).full_kelly = round2 (optimalKelly yp ep * 100)
    ∧ (0 ≤ (calculate_kelly_criterion yp ep).full_kelly
        ∧ (calculate_kelly_criterion yp ep).full_kelly ≤ 100)
    ∧ (calculate_kelly_criterion yp ep).half_kelly = round2 (optimalKelly yp ep * 50)
    ∧ (0 ≤ (calculate_kelly_criterion yp ep).half_kelly
        ∧ (calculate_kelly_criterion yp ep).half_kelly ≤ 50)
    ∧ (calculate_kelly_criterion yp ep).quarter_kelly = round2 (optimalKelly yp ep * 25)
    ∧ (0 ≤ (calculate_kelly_criterion yp ep).quarter_kelly
        ∧ (calculate_kelly_criterion yp ep).quarter_kelly ≤ 25)
    ∧ (kellyYes yp ep ≤ 0 → kellyNo yp ep ≤ 0 →
        (calculate_kelly_criterion yp ep).optimal_side = "NONE"
        ∧ (calculate_kelly_criterion yp ep).full_kelly = 0
        ∧ (calculate_kelly_criterion yp ep).recommendation
            = "No bet recommended (no edge)")
    ∧ ((calculate_kelly_criterion yp ep).optimal_side = "NONE" →
        (calculate_kelly_criterion yp ep).full_kelly = 0) := by
  have h0 : 0 ≤ optimalKelly yp ep := le_max_left _ _
  have h1 : optimalKelly yp ep ≤ 1 := max_le zero_le_one (min_le_left _ _)
  have hbound : ∀ m : ℤ, 0 < m →
      0 ≤ round2 (optimalKelly yp ep * (m : ℚ))
      ∧ round2 (optimalKelly yp ep * (m : ℚ)) ≤ (m : ℚ) := by
    intro m hm
    have hmq : (0 : ℚ) < (m : ℚ) := by exact_mod_cast hm
    constructor
    · exact round2_nonneg (mul_nonneg h0 (le_of_lt hmq))
    · exact round2_le_intCast (by nlinarith)
  have hzero : optimalKelly yp ep = 0 → round2 (optimalKelly yp ep * 100) = 0 := by
    intro h
    rw [h]
    norm_num [round2_zero]
  refine ⟨⟨h0, h1⟩, rfl, ?_, rfl, ?_, rfl, ?_, ?_, ?_⟩
  · simpa using hbound 100 (by norm_num)
  · simpa using hbound 50 (by norm_num)
  · simpa using hbound 25 (by norm_num)
  · intro hy hn
    have hpick : kellyPick yp ep = (0, "NONE") := by
      unfold kellyPick
      dsimp only
      split_ifs with ha hb
      · exact absurd ha.2 (not_lt.mpr hy)
      · exact absurd hb (not_lt.mpr hn)
      · rfl
    have hk0 : optimalKelly yp ep = 0 := by
      unfold optimalKelly
      rw [hpick]
      norm_num
    refine ⟨?_, hzero hk0, ?_⟩
    · show (kellyPick yp ep).2 = "NONE"
      rw [hpick]
    · show (if 1/100 < optimalKelly yp ep then _ else "No bet recommended (no edge)") = _
      rw [hk0]
      norm_num
  · intro hside
    have hside2 : (kellyPick yp ep).2 = "NONE" := hside
    have hk1 : (kellyPick yp ep).1 = 0 := by
      unfold kellyPick at hside2 ⊢
      dsimp only at hside2 ⊢
      split_ifs at hside2 ⊢
      · simp at hside2
      · simp at hside2
      · rfl
    have hk0 : optimalKelly yp ep = 0 := by
      unfold optimalKelly
      rw [hk1]
      norm_num
    exact hzero hk0

theorem kelly_criterion_clamped_witness :
    kellyYes 50 50 ≤ 0 ∧ kellyNo 50 50 ≤ 0
    ∧ ((calculate_kelly_criterion 50 50).optimal_side = "NONE"
        ∧ (calculate_kelly_criterion 50 50).full_kelly = 0
        ∧ (calculate_kelly_criterion 50 50).recommendation
            = "No bet recommended (no edge)") :=
  ⟨by norm_num [kellyYes], by norm_num [kellyNo],
    (kelly_criterion_clamped 50 50).2.2.2.2.2.2.2.1 (by norm_num [kellyYes])
      (by norm_num [kellyNo])⟩

/-- Result of calculate_momentum_indicators.  The under-three-points sentinel
dict has no rate_of_change key, hence the Option fields. -/
structure MomentumResult where
  current_price : ℚ
  sma_short : Option ℚ
  sma_long : Option ℚ
  ema : Option ℚ
  rate_of_change : Option ℚ
  trend_signal : String
deriving DecidableEq

/-- calculate_momentum_indicators (debate.py lines 234-294). -/
def calculate_momentum_indicators (prices : List ℚ) : MomentumResult :=
  if prices.length < 3 then
    ⟨prices.getLast?.getD 0, none, none, none, none, "Insufficient data"⟩
  else
    let current := prices.getLast?.getD 0
    let n := prices.length
    let short_period := max 3 (n / 4)
    let sma_short := (prices.drop (n - short_period)).sum / short_period
    let sma_long := prices.sum / n
    let ema_period := min 10 n
    let alpha : ℚ := 2 / (ema_period + 1)
    let seed := (prices.drop (n - ema_period)).headI
    let ema := (prices.drop (n - ema_period + 1)).foldl
      (fun e p => alpha * p + (1 - alpha) * e) seed
    let trend :=
      if sma_long < sma_short ∧ sma_short < current then
        "Strong Bullish (price > short SMA > long SMA)"
      else if sma_short < current then
        "Bullish (price above short-term average)"
      else if current < sma_short ∧ sma_short < sma_long then
        "Strong Bearish (price < short SMA < long SMA)"
      else if current < sma_short then
        "Bearish (price below short-term average)"
      else "Neutral (consolidating)"
    let roc :=
      if 5 ≤ n then
        let p5 := (prices.drop (n - 5)).headI
        if 0 < p5 then (current - p5) / p5 * 100 else 0
      else 0
    ⟨round2 current, some (round2 sma_short), some (round2 sma_long),
      some (round2 ema), some (round2 roc), trend⟩

/-- Result of analyze_price_volatility.  The sentinel dict has no high/low
keys, hence the Option fields.  std_dev and the coefficient of variation come
from math.sqrt, so they live in ℝ. -/
structure VolatilityResult where
  std_dev : ℝ
  mean : ℚ
  coefficient_of_variation : ℝ
  volatility_regime : String
  range : ℚ
  high : Option ℚ
  low : Option ℚ

/-- Python round(x, 2) on reals. -/
noncomputable def round2R (x : ℝ) : ℝ := (pyRound (x * 100) : ℝ) / 100

/-- analyze_price_volatility (debate.py lines 186-231). -/
noncomputable def analyze_price_volatility (prices : List ℚ) : VolatilityResult :=
  if prices.length < 2 then
    ⟨0, 50, 0, "Unknown (insufficient data)", 0, none, none⟩
  else
    let n := prices.length
    let mean := prices.sum / n
    let variance := (prices.map (fun p => ((p - mean) ^ 2 : ℚ))).sum / (n : ℚ)
    let std_dev : ℝ := Real.sqrt (variance : ℝ)
    let cv : ℝ := if 0 < mean then std_dev / (mean : ℝ) * 100 else 0
    let regime :=
      if std_dev < 2 then "Low volatility (stable)"
      else if std_dev < 5 then "Moderate volatility"
      else if std_dev < 10 then "High volatility"
      else "Extreme volatility"
    let high := prices.foldl max prices.headI
    let low := prices.foldl min prices.headI
    ⟨round2R std_dev, round2 mean, round2R cv, regime, round2 (high - low),
      some (round2 high), some (round2 low)⟩

/-! ## Time decay (debate.py lines 354-459)

The source parses the end-date string with several strptime formats; the
parsing outcome is modelled by EndDate (missing / unparsable / a parsed
timestamp in epoch seconds).  Python's timedelta normalises a difference into
integer days (floored), integer seconds in [0, 86400) and leftover
microseconds; days_remaining = td.days + td.seconds / 86400 drops the
microsecond part, which tdSeconds models with a floor. -/

inductive EndDate where
  | missing : EndDate
  | unparsable : String → EndDate
  | parsed : ℚ → EndDate

/-- timedelta.days of a difference of delta seconds. -/
def tdDays (delta : ℚ) : ℤ := ⌊delta / 86400⌋

/-- timedelta.seconds of a difference of delta seconds. -/
def tdSeconds (delta : ℚ) : ℤ := ⌊delta - (tdDays delta : ℚ) * 86400⌋

/-- days_remaining at debate.py line 382. -/
def daysRemaining (endTs nowTs : ℚ) : ℚ :=
  (tdDays (endTs - nowTs) : ℚ) + (tdSeconds (endTs - nowTs) : ℚ) / 86400

/-- hours_remaining at debate.py line 383 (total_seconds keeps microseconds). -/
def hoursRemaining (endTs nowTs : ℚ) : ℚ := (endTs - nowTs) / 3600

/-- Theta computation at debate.py lines 413-417: the rounded
1 / sqrt(max(days, 0.1)) when days_remaining > 0, and the bare 1.0 otherwise. -/
noncomputable def thetaFactor (days : ℚ) : ℝ :=
  if 0 < days then round3R (1 / Real.sqrt (max (days : ℝ) (1/10))) else 1

/-- Result of calculate_time_decay_metrics; the three return shapes (error
dict, EXPIRED dict, full dict) are merged with Option fields.  The advisory
strings of the full dict (urgency description, volatility assessment, theta
advice, formatted end date) are elided. -/
structure TimeDecayResult where
  error : Option String
  days_remaining : Option ℚ
  hours_remaining : Option ℚ
  status : Option String
  urgency : Option String
  theta_factor : Option ℝ
  volatility_risk : Option ℚ

/-- calculate_time_decay_metrics (debate.py lines 354-459). -/
noncomputable def calculate_time_decay_metrics (end_date : EndDate)
    (nowTs currentPrice : ℚ) : TimeDecayResult :=
  match end_date with
  | .missing => ⟨some "No end date provided", none, none, none, none, none, none⟩
  | .unparsable _ => ⟨some "Could not parse end date", none, none, none, none, none, none⟩
  | .parsed endTs =>
    let days := daysRemaining endTs nowTs
    let hours := hoursRemaining endTs nowTs
    if days < 0 then
      ⟨none, some 0, some 0, some "EXPIRED", some "Market has ended", none, none⟩
    else
      let urgency :=
        if hours ≤ 24 then "CRITICAL"
        else if days ≤ 3 then "HIGH"
        else if days ≤ 7 then "MODERATE"
        else if days ≤ 30 then "LOW"
        else "MINIMAL"
      let price_uncertainty := 1 - |currentPrice - 50| / 50
      let time_pressure := min 1 (7 / max days (1/10))
      let volatility_risk := price_uncertainty * time_pressure
      ⟨none, some (round1 days), some (round1 hours), none, some urgency,
        some (thetaFactor days), some (round2 volatility_risk)⟩

theorem tdSeconds_nonneg (delta : ℚ) : 0 ≤ tdSeconds delta := by
  unfold tdSeconds tdDays
  have h : delta - (⌊delta / 86400⌋ : ℚ) * 86400 = 86400 * Int.fract (delta / 86400) := by
    unfold Int.fract
    field_simp
    ring
  rw [h]
  exact Int.floor_nonneg.mpr (mul_nonneg (by norm_num) (Int.fract_nonneg _))

theorem tdSeconds_lt (delta : ℚ) : tdSeconds delta < 86400 := by
  unfold tdSeconds tdDays
  have h : delta - (⌊delta / 86400⌋ : ℚ) * 86400 = 86400 * Int.fract (delta / 86400) := by
    unfold Int.fract
    field_simp
    ring
  rw [h]
  have h2 : (86400 : ℚ) * Int.fract (delta / 86400) < 86400 := by
    have := Int.fract_lt_one (delta / 86400)
    linarith
  exact_mod_cast Int.floor_lt.mpr (by exact_mod_cast h2)

theorem daysRemaining_neg_of_lt {endTs nowTs : ℚ} (h : endTs < nowTs) :
    daysRemaining endTs nowTs < 0 := by
  unfold daysRemaining
  have hd : tdDays (endTs - nowTs) ≤ -1 := by
    unfold tdDays
    have hneg : (endTs - nowTs) / 86400 < 0 := by
      apply div_neg_of_neg_of_pos (by linarith) (by norm_num)
    have hf : ⌊(endTs - nowTs) / 86400⌋ < 0 := by
      rw [Int.floor_lt]
      exact_mod_cast hneg
    omega
  have hs : (tdSeconds (endTs - nowTs) : ℚ) / 86400 < 1 := by
    have := tdSeconds_lt (endTs - nowTs)
    have hq : (tdSeconds (endTs - nowTs) : ℚ) < 86400 := by exact_mod_cast this
    linarith
  have hdq : (tdDays (endTs - nowTs) : ℚ) ≤ -1 := by exact_mod_cast hd
  linarith

theorem daysRemaining_nonneg_of_le {endTs nowTs : ℚ} (h : nowTs ≤ endTs) :
    0 ≤ daysRemaining endTs nowTs := by
  unfold daysRemaining
  have hd : 0 ≤ tdDays (endTs - nowTs) := by
    unfold tdDays
    exact Int.floor_nonneg.mpr (div_nonneg (by linarith) (by norm_num))
  have hs := tdSeconds_nonneg (endTs - nowTs)
  have hdq : (0 : ℚ) ≤ (tdDays (endTs - nowTs) : ℚ) := by exact_mod_cast hd
  have hsq : (0 : ℚ) ≤ (tdSeconds (endTs - nowTs) : ℚ) := by exact_mod_cast hs
  have hdiv : (0 : ℚ) ≤ (tdSeconds (endTs - nowTs) : ℚ) / 86400 :=
    div_nonneg hsq (by norm_num)
  linarith

/-- C7 (counterexample): at an end date exactly equal to the current time the
remaining time is non-negative (days_remaining = 0), yet the code returns
theta_factor = 1.0 (the else-branch of the days > 0 guard) while the claimed
formula round(1 / sqrt(max(days, 0.1)), 3) evaluates to round(sqrt(10), 3),
which is not 1. -/
theorem time_decay_theta_counterexample :
    daysRemaining 0 0 = 0
    ∧ 0 ≤ daysRemaining 0 0
    ∧ (calculate_time_decay_metrics (.parsed 0) 0 50).theta_factor = some 1
    ∧ round3R (1 / Real.sqrt (max ((daysRemaining 0 0 : ℚ) : ℝ) (1/10))) ≠ (1 : ℝ) := by
  have hd0 : daysRemaining 0 0 = 0 := by
    norm_num [daysRemaining, tdDays, tdSeconds]
  have hth : (calculate_time_decay_metrics (.parsed 0) 0 50).theta_factor = some 1 := by
    norm_num [calculate_time_decay_metrics, hd0, thetaFactor]
  have hmax : max (((daysRemaining 0 0 : ℚ)) : ℝ) (1/10) = 1/10 := by
    rw [hd0]
    norm_num
  have hsqrt : (1 : ℝ) / Real.sqrt (1/10) = Real.sqrt 10 := by
    rw [show ((1 : ℝ)/10) = (10 : ℝ)⁻¹ by norm_num, Real.sqrt_inv, one_div, inv_inv]
  have hlb : (3162 : ℝ) ≤ Real.sqrt 10 * 1000 := by
    have h1 : (1581/500 : ℝ) ≤ Real.sqrt 10 := by
      rw [Real.le_sqrt' (by norm_num)]
      norm_num
    linarith
  have hpr : (3162 : ℤ) ≤ pyRound (Real.sqrt 10 * 1000) :=
    intCast_le_pyRound (by push_cast; linarith)
  have hprR : (3162 : ℝ) ≤ (pyRound (Real.sqrt 10 * 1000) : ℝ) := by exact_mod_cast hpr
  refine ⟨hd0, le_of_eq hd0.symm, hth, ?_⟩
  rw [hmax, hsqrt]
  unfold round3R
  intro heq
  rw [div_eq_one_iff_eq (by norm_num)] at heq
  linarith

/-- C7 (amended): a strictly negative time delta gives days_remaining < 0 and
the EXPIRED sentinel with zero days and hours; a non-negative delta gives
days_remaining ≥ 0; when days_remaining > 0 the reported theta_factor is
round(1 / sqrt(max(days_remaining, 0.1)), 3); when days_remaining = 0 the
reported theta_factor is the bare 1.0. -/
theorem time_decay_metrics_amended (endTs nowTs cp : ℚ) :
    (endTs < nowTs → daysRemaining endTs nowTs < 0)
    ∧ (nowTs ≤ endTs → 0 ≤ daysRemaining endTs nowTs)
    ∧ (daysRemaining endTs nowTs < 0 →
        calculate_time_decay_metrics (.parsed endTs) nowTs cp
          = ⟨none, some 0, some 0, some "EXPIRED", some "Market has ended", none, none⟩)
    ∧ (0 < daysRemaining endTs nowTs →
        (calculate_time_decay_metrics (.parsed endTs) nowTs cp).theta_factor
          = some (round3R (1 / Real.sqrt (max ((daysRemaining endTs nowTs : ℚ) : ℝ) (1/10)))))
    ∧ (daysRemaining endTs nowTs = 0 →
        (calculate_time_decay_metrics (.parsed endTs) nowTs cp).theta_factor
          = some 1) := by
  refine ⟨fun h => daysRemaining_neg_of_lt h, fun h => daysRemaining_nonneg_of_le h,
    ?_, ?_, ?_⟩
  · intro hneg
    simp [calculate_time_decay_metrics, hneg]
  · intro hpos
    have hnn : ¬ daysRemaining endTs nowTs < 0 := not_lt.mpr (le_of_lt hpos)
    simp [calculate_time_decay_metrics, hnn, thetaFactor, hpos]
  · intro hz
    have hnn : ¬ daysRemaining endTs nowTs < 0 := by rw [hz]; norm_num
    simp [calculate_time_decay_metrics, hnn, thetaFactor, hz]

theorem time_decay_metrics_amended_witness :
    daysRemaining 0 86400 < 0
    ∧ calculate_time_decay_metrics (.parsed 0) 86400 50
        = ⟨none, some 0, some 0, some "EXPIRED", some "Market has ended", none, none⟩
    ∧ 0 < daysRemaining 172800 0
    ∧ (calculate_time_decay_metrics (.parsed 172800) 0 50).theta_factor
        = some (round3R (1 / Real.sqrt (max ((daysRemaining 172800 0 : ℚ) : ℝ) (1/10)))) := by
  have h1 : daysRemaining 0 86400 < 0 := by
    norm_num [daysRemaining, tdDays, tdSeconds]
  have h2 : (0 : ℚ) < daysRemaining 172800 0 := by
    norm_num [daysRemaining, tdDays, tdSeconds]
  exact ⟨h1, (time_decay_metrics_amended 0 86400 50).2.2.1 h1, h2,
    (time_decay_metrics_amended 172800 0 50).2.2.2.1 h2⟩

/-! ## Trader-flow aggregation (src/backend/routes/debate.py, lines 154-451)

Only the trade-record aggregation path is modelled (the holders path assigns
no bias and none of the claims concern it).  A raw trade dict is modelled by
RawTrade: marketFields holds the seven market-identifier fields consulted by
trade_matches_market; timestamp is the parsed trade time in epoch seconds
(none when the field is absent, falsy or unparsable); size/price are none when
float() raises; valueField is the first parseable of the explicit notional
keys tried by _parse_trade_value; address is none when all three wallet keys
are absent or falsy.  last_trade_at keeps the numeric timestamp (the source
compares equal-format ISO strings, an order-isomorphic encoding). -/

structure RawTrade where
  marketFields : List (Option String)
  timestamp : Option ℚ
  side : String
  outcome : String
  size : Option ℚ
  price : Option ℚ
  valueField : Option ℚ
  address : Option String
  name : Option String
deriving DecidableEq

/-- Python str.strip on the character list of a string. -/
def pyStrip (s : String) : String :=
  ⟨((s.data.dropWhile Char.isWhitespace).reverse.dropWhile Char.isWhitespace).reverse⟩

/-- Python str.upper (the identifiers fed through it here are ASCII). -/
def pyUpper (s : String) : String := ⟨s.data.map Char.toUpper⟩

/-- Python str.lower (the identifiers fed through it here are ASCII). -/
def pyLower (s : String) : String := ⟨s.data.map Char.toLower⟩

/-- trade_matches_market (routes/debate.py lines 285-302). -/
def trade_matches_market (market_keys : List String) (t : RawTrade) : Bool :=
  let normalized := ((t.marketFields.filterMap id).filter
    (fun v => pyStrip v ≠ "")).map (fun v => pyLower (pyStrip v))
  if normalized.isEmpty then false
  else normalized.any (fun v => market_keys.contains v)

/-- Per-wallet running aggregate (the dict built by setdefault at
routes/debate.py lines 354-362). -/
structure TraderAgg where
  address : String
  name : Option String
  total_volume : ℚ
  trade_count : ℕ
  bullish_volume : ℚ
  bearish_volume : ℚ
  last_trade_at : ℚ
deriving DecidableEq

/-- The filter chain applied to one raw trade (routes/debate.py lines
305-353): market match, timestamp presence, lookback cutoff, BUY/SELL side,
bullish classification, parseable size/price, positive notional, wallet
address.  Returns the accepted accumulation data or none for a skipped
trade. -/
def processTrade (market_keys : List String) (cutoff : ℚ) (t : RawTrade) :
    Option (String × Option String × ℚ × Bool × ℚ) :=
  if trade_matches_market market_keys t then
    match t.timestamp with
    | none => none
    | some trade_time =>
      if trade_time < cutoff then none
      else
        let side := pyUpper t.side
        if side = "BUY" ∨ side = "SELL" then
          let outcome_lower := pyLower t.outcome
          let is_yes := outcome_lower = "yes" ∨ outcome_lower = "up"
          let is_no := outcome_lower = "no" ∨ outcome_lower = "down"
          let is_bullish : Bool := (side = "BUY" ∧ is_yes) ∨ (side = "SELL" ∧ is_no)
          match t.size, t.price with
          | some size, some price =>
            let volume := t.valueField.getD (size * price)
            if volume ≤ 0 then none
            else
              match t.address with
              | none => none
              | some address => some (address, t.name, volume, is_bullish, trade_time)
          | _, _ => none
        else none
  else none

/-- The per-trade accumulation (routes/debate.py lines 364-375). -/
def updateAgg (agg : TraderAgg) (name : Option String) (volume : ℚ)
    (is_bullish : Bool) (trade_time : ℚ) : TraderAgg :=
  let agg1 := { agg with
    total_volume := agg.total_volume + volume
    trade_count := agg.trade_count + 1
    bullish_volume := if is_bullish then agg.bullish_volume + volume else agg.bullish_volume
    bearish_volume := if is_bullish then agg.bearish_volume else agg.bearish_volume + volume
    last_trade_at := if agg.last_trade_at < trade_time then trade_time else agg.last_trade_at }
  if agg1.name.isNone ∧ name.isSome then { agg1 with name := name } else agg1

/-- dict.setdefault followed by the updates: find the wallet in insertion
order, or append a fresh zeroed aggregate, then accumulate the trade. -/
def insertTrade : List TraderAgg → String → Option String → ℚ → Bool → ℚ → List TraderAgg
  | [], address, name, volume, ib, tt =>
    [updateAgg ⟨address, name, 0, 0, 0, 0, tt⟩ name volume ib tt]
  | a :: rest, address, name, volume, ib, tt =>
    if a.address = address then updateAgg a name volume ib tt :: rest
    else a :: insertTrade rest address name volume ib tt

/-- The aggregation loop over all fetched trades (routes/debate.py lines
303-375); the resulting list is the dict's values in insertion order. -/
def aggregateTrades (market_keys : List String) (cutoff : ℚ)
    (trades : List RawTrade) : List TraderAgg :=
  trades.foldl (fun acc t =>
    match processTrade market_keys cutoff t with
    | none => acc
    | some (address, name, volume, ib, tt) => insertTrade acc address name volume ib tt) []

/-- Bias classification (routes/debate.py lines 436-444). -/
def assignBias (bullish bearish : ℚ) : String :=
  if bearish * (11/10) < bullish then "bullish"
  else if bullish * (11/10) < bearish then "bearish"
  else "mixed"

/-- A fully assembled top-trader entry (bias plus enrichment fields). -/
structure Trader where
  address : String
  name : Option String
  total_volume : ℚ
  trade_count : ℕ
  bullish_volume : ℚ
  bearish_volume : ℚ
  last_trade_at : ℚ
  bias : String
  global_pnl : ℚ
  global_roi : ℚ
  total_balance : ℚ
deriving DecidableEq

/-- Bias assignment and stats enrichment of one aggregate (routes/debate.py
lines 435-449); stats models the per-address global PnL/ROI/balance lookups
(enrichment failures degrade to zeros inside stats). -/
def finalizeTrader (stats : String → ℚ × ℚ × ℚ) (a : TraderAgg) : Trader :=
  let s := stats a.address
  ⟨a.address, a.name, a.total_volume, a.trade_count, a.bullish_volume,
    a.bearish_volume, a.last_trade_at, assignBias a.bullish_volume a.bearish_volume,
    s.1, s.2.1, s.2.2⟩

/-- The trade-record path of _fetch_top_traders (routes/debate.py lines
262-451): aggregate, rank by total volume descending (Python's stable sort),
keep the top five, assign bias and enrichment. -/
def fetchTopTradersFromTrades (market_keys : List String) (cutoff : ℚ)
    (trades : List RawTrade) (stats : String → ℚ × ℚ × ℚ) : List Trader :=
  let aggregates := aggregateTrades market_keys cutoff trades
  let traders := aggregates.mergeSort (fun a b => b.total_volume ≤ a.total_volume)
  let top_traders := traders.take 5
  top_traders.map (finalizeTrader stats)

/-- The per-entry invariant of the aggregation. -/
def aggInvariant (a : TraderAgg) : Prop :=
  a.total_volume = a.bullish_volume + a.bearish_volume
  ∧ 0 < a.total_volume ∧ 1 ≤ a.trade_count
  ∧ 0 ≤ a.bullish_volume ∧ 0 ≤ a.bearish_volume

theorem processTrade_volume_pos {market_keys : List String} {cutoff : ℚ}
    {t : RawTrade} {address : String} {name : Option String} {volume : ℚ}
    {ib : Bool} {tt : ℚ}
    (h : processTrade market_keys cutoff t = some (address, name, volume, ib, tt)) :
    0 < volume := by
  unfold processTrade at h
  dsimp only at h
  repeat' split at h
  all_goals simp_all

theorem updateAgg_invariant {a : TraderAgg} {name : Option String} {volume : ℚ}
    {ib : Bool} {tt : ℚ}
    (hpre : a.total_volume = a.bullish_volume + a.bearish_volume
      ∧ 0 ≤ a.bullish_volume ∧ 0 ≤ a.bearish_volume)
    (hv : 0 < volume) :
    aggInvariant (updateAgg a name volume ib tt) := by
  obtain ⟨h1, h2, h3⟩ := hpre
  have hfields :
      (updateAgg a name volume ib tt).total_volume = a.total_volume + volume
      ∧ (updateAgg a name volume ib tt).trade_count = a.trade_count + 1
      ∧ (updateAgg a name volume ib tt).bullish_volume
          = (if ib then a.bullish_volume + volume else a.bullish_volume)
      ∧ (updateAgg a name volume ib tt).bearish_volume
          = (if ib then a.bearish_volume else a.bearish_volume + volume) := by
    unfold updateAgg
    dsimp only
    split_ifs <;> exact ⟨rfl, rfl, rfl, rfl⟩
  obtain ⟨e1, e2, e3, e4⟩ := hfields
  unfold aggInvariant
  rw [e1, e2, e3, e4]
  cases ib <;> refine ⟨?_, ?_, ?_, ?_, ?_⟩ <;> try simp_all
  all_goals linarith

theorem insertTrade_invariant {l : List TraderAgg} {address : String}
    {name : Option String} {volume : ℚ} {ib : Bool} {tt : ℚ}
    (hl : ∀ a ∈ l, aggInvariant a) (hv : 0 < volume) :
    ∀ a ∈ insertTrade l address name volume ib tt, aggInvariant a := by
  induction l with
  | nil =>
    intro a ha
    simp only [insertTrade, List.mem_singleton] at ha
    subst ha
    exact updateAgg_invariant (by simp) hv
  | cons b rest ih =>
    intro a ha
    simp only [insertTrade] at ha
    split_ifs at ha with hb
    · rcases List.mem_cons.mp ha with h | h
      · subst h
        have hbinv := hl b (List.mem_cons_self _ _)
        exact updateAgg_invariant ⟨hbinv.1, hbinv.2.2.2⟩ hv
      · exact hl a (List.mem_cons_of_mem _ h)
    · rcases List.mem_cons.mp ha with h | h
      · subst h
        exact hl a (List.mem_cons_self _ _)
      · exact ih (fun x hx => hl x (List.mem_cons_of_mem _ hx)) a h

theorem aggregateTrades_invariant (market_keys : List String) (cutoff : ℚ)
    (trades : List RawTrade) :
    ∀ a ∈ aggregateTrades market_keys cutoff trades, aggInvariant a := by
  unfold aggregateTrades
  suffices h : ∀ (acc : List TraderAgg), (∀ a ∈ acc, aggInvariant a) →
      ∀ a ∈ trades.foldl (fun acc t =>
        match processTrade market_keys cutoff t with
        | none => acc
        | some (address, name, volume, ib, tt) =>
            insertTrade acc address name volume ib tt) acc, aggInvariant a by
    exact h [] (by simp)
  induction trades with
  | nil => intro acc hacc a ha; exact hacc a ha
  | cons t rest ih =>
    intro acc hacc a ha
    simp only [List.foldl_cons] at ha
    rcases hp : processTrade market_keys cutoff t with - | ⟨address, name, volume, ib, tt⟩
    · rw [hp] at ha
      exact ih acc hacc a ha
    · rw [hp] at ha
      exact ih _ (insertTrade_invariant hacc (processTrade_volume_pos hp)) a ha

theorem mem_fetchTopTraders {market_keys : List String} {cutoff : ℚ}
    {trades : List RawTrade} {stats : String → ℚ × ℚ × ℚ} {t : Trader}
    (h : t ∈ fetchTopTradersFromTrades market_keys cutoff trades stats) :
    ∃ a ∈ aggregateTrades market_keys cutoff trades, t = finalizeTrader stats a := by
  unfold fetchTopTradersFromTrades at h
  dsimp only at h
  rcases List.mem_map.mp h with ⟨a, ha, rfl⟩
  refine ⟨a, ?_, rfl⟩
  exact List.mem_mergeSort.mp (List.mem_of_mem_take ha)

/-- C10: every entry produced by the trade-record aggregation path satisfies
total_volume = bullish_volume + bearish_volume, has strictly positive total
volume and at least one counted trade, because non-positive notionals are
discarded before accumulation and each accepted notional goes to the total
and to exactly one directional bucket. -/
theorem trader_totals_invariant (market_keys : List String) (cutoff : ℚ)
    (trades : List RawTrade) (stats : String → ℚ × ℚ × ℚ) :
    ∀ t ∈ fetchTopTradersFromTrades market_keys cutoff trades stats,
      t.total_volume = t.bullish_volume + t.bearish_volume
      ∧ 0 < t.total_volume ∧ 1 ≤ t.trade_count := by
  intro t ht
  rcases mem_fetchTopTraders ht with ⟨a, ha, rfl⟩
  have hinv := aggregateTrades_invariant market_keys cutoff trades a ha
  exact ⟨hinv.1, hinv.2.1, hinv.2.2.1⟩

theorem assignBias_iff {bull bear : ℚ} (hb : 0 ≤ bull) (he : 0 ≤ bear) :
    (assignBias bull bear = "bullish" ↔ bear * (11/10) < bull)
    ∧ (assignBias bull bear = "bearish" ↔ bull * (11/10) < bear)
    ∧ (assignBias bull bear = "mixed" ↔
        ¬ bear * (11/10) < bull ∧ ¬ bull * (11/10) < bear) := by
  unfold assignBias
  split_ifs with h1 h2
  · exact ⟨iff_of_true rfl h1,
      iff_of_false (by decide) (fun hc => by linarith),
      iff_of_false (by decide) (fun hc => hc.1 h1)⟩
  · exact ⟨iff_of_false (by decide) h1,
      iff_of_true rfl h2,
      iff_of_false (by decide) (fun hc => hc.2 h2)⟩
  · exact ⟨iff_of_false (by decide) h1, iff_of_false (by decide) h2,
      iff_of_true rfl ⟨h1, h2⟩⟩

/-- C4: every entry produced by the trade-record aggregation path is
classified bullish exactly when bullish_volume > 1.1 x bearish_volume,
bearish exactly when bearish_volume > 1.1 x bullish_volume, and mixed
otherwise; in particular 111/100 is bullish while 110/100 and 109/100 are
mixed. -/
theorem trader_bias_classification (market_keys : List String) (cutoff : ℚ)
    (trades : List RawTrade) (stats : String → ℚ × ℚ × ℚ) :
    (∀ t ∈ fetchTopTradersFromTrades market_keys cutoff trades stats,
      (t.bias = "bullish" ↔ t.bearish_volume * (11/10) < t.bullish_volume)
      ∧ (t.bias = "bearish" ↔ t.bullish_volume * (11/10) < t.bearish_volume)
      ∧ (t.bias = "mixed" ↔
          ¬ t.bearish_volume * (11/10) < t.bullish_volume
          ∧ ¬ t.bullish_volume * (11/10) < t.bearish_volume))
    ∧ assignBias 111 100 = "bullish"
    ∧ assignBias 110 100 = "mixed"
    ∧ assignBias 109 100 = "mixed" := by
  refine ⟨?_, by norm_num [assignBias], by norm_num [assignBias],
    by norm_num [assignBias]⟩
  intro t ht
  rcases mem_fetchTopTraders ht with ⟨a, ha, rfl⟩
  have hinv := aggregateTrades_invariant market_keys cutoff trades a ha
  exact assignBias_iff hinv.2.2.2.1 hinv.2.2.2.2

/-- A two-trade sample input for the aggregation-path witnesses: the same
wallet buys YES for a notional of 111 and buys NO for a notional of 100. -/
def sampleTrades : List RawTrade :=
  [⟨[some "m2"], some 10, "BUY", "Yes", some 1, some 1, some 111, some "0xdef", none⟩,
   ⟨[some "m2"], some 20, "BUY", "No", some 1, some 1, some 100, some "0xdef", none⟩]

/-- The single aggregated entry the sample produces. -/
def sampleTrader : Trader :=
  ⟨"0xdef", none, 211, 2, 111, 100, 20, "bullish", 0, 0, 0⟩

theorem sampleTrader_mem :
    sampleTrader ∈ fetchTopTradersFromTrades ["m2"] 0 sampleTrades
      (fun _ => (0, 0, 0)) := by
  have hBUY : pyUpper "BUY" = "BUY" := rfl
  have hYes : pyLower "Yes" = "yes" := rfl
  have hNo : pyLower "No" = "no" := rfl
  have hm2l : pyLower "m2" = "m2" := rfl
  have hm2s : pyStrip "m2" = "m2" := rfl
  have h1 : aggregateTrades ["m2"] 0 sampleTrades
      = [⟨"0xdef", none, 211, 2, 111, 100, 20⟩] := by
    simp only [aggregateTrades, processTrade, trade_matches_market, insertTrade,
      updateAgg, sampleTrades, hBUY, hYes, hNo, hm2l, hm2s, List.foldl,
      List.filterMap, List.filter, List.map, List.isEmpty, List.any,
      List.contains, List.elem]
    norm_num
    all_goals decide
  have h2 : finalizeTrader (fun _ => (0, 0, 0)) ⟨"0xdef", none, 211, 2, 111, 100, 20⟩
      = sampleTrader := by
    norm_num [finalizeTrader, assignBias, sampleTrader]
  unfold fetchTopTradersFromTrades
  dsimp only
  rw [h1, List.mergeSort_singleton]
  show sampleTrader ∈ [finalizeTrader (fun _ => (0, 0, 0)) ⟨"0xdef", none, 211, 2, 111, 100, 20⟩]
  rw [h2]
  exact List.mem_singleton.mpr rfl

theorem trader_totals_invariant_witness :
    sampleTrader ∈ fetchTopTradersFromTrades ["m2"] 0 sampleTrades (fun _ => (0, 0, 0))
    ∧ (sampleTrader.total_volume = sampleTrader.bullish_volume + sampleTrader.bearish_volume
        ∧ 0 < sampleTrader.total_volume ∧ 1 ≤ sampleTrader.trade_count) :=
  ⟨sampleTrader_mem,
    trader_totals_invariant ["m2"] 0 sampleTrades (fun _ => (0, 0, 0))
      sampleTrader sampleTrader_mem⟩

/-- A one-trade sample for the bias witness: one wallet buys YES for 10. -/
def sampleTradesB : List RawTrade :=
  [⟨[some "m3"], some 100, "BUY", "Yes", some 10, some 1, none, some "0xabc", none⟩]

/-- The single aggregated entry that sample produces. -/
def sampleTraderB : Trader :=
  ⟨"0xabc", none, 10, 1, 10, 0, 100, "bullish", 0, 0, 0⟩

theorem sampleTraderB_mem :
    sampleTraderB ∈ fetchTopTradersFromTrades ["m3"] 0 sampleTradesB
      (fun _ => (0, 0, 0)) := by
  have hBUY : pyUpper "BUY" = "BUY" := rfl
  have hYes : pyLower "Yes" = "yes" := rfl
  have hm3l : pyLower "m3" = "m3" := rfl
  have hm3s : pyStrip "m3" = "m3" := rfl
  have h1 : aggregateTrades ["m3"] 0 sampleTradesB
      = [⟨"0xabc", none, 10, 1, 10, 0, 100⟩] := by
    simp only [aggregateTrades, processTrade, trade_matches_market, insertTrade,
      updateAgg, sampleTradesB, hBUY, hYes, hm3l, hm3s, List.foldl,
      List.filterMap, List.filter, List.map, List.isEmpty, List.any,
      List.contains, List.elem]
    norm_num
  have h2 : finalizeTrader (fun _ => (0, 0, 0)) ⟨"0xabc", none, 10, 1, 10, 0, 100⟩
      = sampleTraderB := by
    norm_num [finalizeTrader, assignBias, sampleTraderB]
  unfold fetchTopTradersFromTrades
  dsimp only
  rw [h1, List.mergeSort_singleton]
  show sampleTraderB ∈ [finalizeTrader (fun _ => (0, 0, 0)) ⟨"0xabc", none, 10, 1, 10, 0, 100⟩]
  rw [h2]
  exact List.mem_singleton.mpr rfl

theorem trader_bias_classification_witness :
    sampleTraderB ∈ fetchTopTradersFromTrades ["m3"] 0 sampleTradesB (fun _ => (0, 0, 0))
    ∧ (sampleTraderB.bias = "bullish"
        ↔ sampleTraderB.bearish_volume * (11/10) < sampleTraderB.bullish_volume) :=
  ⟨sampleTraderB_mem,
    (((trader_bias_classification ["m3"] 0 sampleTradesB (fun _ => (0, 0, 0))).1
      sampleTraderB sampleTraderB_mem).1)⟩

/-! ## Debate pipeline (src/backend/agents/debate.py, lines 462-1048)

Each stage function wraps its whole body in try/except and returns a dict
patch {"messages": [HumanMessage(...)]} (the moderator also returns
"verdict").  External calls are modelled by an Oracle carrying, per call
site, the outcome of that call: ok with the response text, or error with the
raised exception's text.  A stage body raises exactly when the oracle entry
for its uncaught call site is an error (the generalist's query-generation and
search calls are caught by inner try/except blocks, so their failures do not
raise).  Success-path report strings are assembled from the same computed
pieces as the source but with condensed numeric formatting; no claim
constrains them.  The source's display name for devils_advocate contains an
apostrophe, rendered here as "Devils Advocate". -/

/-- One HumanMessage appended by a stage: author name and content. -/
structure Contribution where
  name : String
  content : String
deriving DecidableEq

/-- The market_data dict assembled by the route (routes/debate.py lines
502-509), with end_date carried in parsed form. -/
structure MarketData where
  title : String
  price : ℚ
  volume_24h : ℚ
  volume_7d : ℚ
  liquidity : ℚ
  end_date : EndDate

/-- DebateState (agents/debate.py lines 463-470). -/
structure DebateState where
  messages : List Contribution
  market_data : MarketData
  market_question : String
  verdict : String
  price_history_24h : List ℚ
  price_history_7d : List ℚ
  top_traders : List Trader

/-- The dict a stage returns: messages to append (via the add_messages
reducer) and, for the moderator, a verdict to set. -/
structure StagePatch where
  messages : List Contribution
  verdict : Option String

/-- Outcomes of the external calls a run can make, one field per call site;
now is the wall clock read by the time-decay stage. -/
structure Oracle where
  statsLLM : Except String String
  timeLLM : Except String String
  tradersLLM : Except String String
  genQueryLLM : Except String String
  genSearch : String → Except String (List String)
  genLLM : Except String String
  devilsLLM : Except String String
  cryptoLLM : Except String String
  moderatorLLM : Except String String
  now : ℚ

/-- The quantitative report assembled by statistics_expert (debate.py lines
499-577), condensed to one line per computed block.  The volatility block is
also computed by the source; it is included here through the same call. -/
noncomputable def statsReport (s : DebateState) : String :=
  let current_price := s.market_data.price
  let price_data := if s.price_history_7d.isEmpty then s.price_history_24h
    else s.price_history_7d
  let implied := calculate_implied_probability current_price
  let volatility := analyze_price_volatility price_data
  let momentum := calculate_momentum_indicators price_data
  let sr_levels := compute_support_resistance price_data
  let ev_bullish := calculate_expected_value current_price (min 95 (current_price + 10))
  let ev_bearish := calculate_expected_value current_price (max 5 (current_price - 10))
  let momentum_adj : ℚ :=
    if momentum.trend_signal.startsWith "Strong Bullish" then 5
    else if momentum.trend_signal.startsWith "Bullish" then 2
    else if momentum.trend_signal.startsWith "Strong Bearish" then -5
    else if momentum.trend_signal.startsWith "Bearish" then -2
    else 0
  let adjusted_prob := max 5 (min 95 (current_price + momentum_adj))
  let kelly := calculate_kelly_criterion current_price adjusted_prob
  "## Quantitative Analysis Report\n- Market implies "
    ++ toString implied.implied_yes_prob ++ "% chance of YES\n- Regime: "
    ++ volatility.volatility_regime ++ "\n- Trend: " ++ momentum.trend_signal
    ++ "\n- Position: " ++ sr_levels.current_position
    ++ "\n- Bullish case: " ++ ev_bullish.recommendation
    ++ "\n- Bearish case: " ++ ev_bearish.recommendation
    ++ "\n- Optimal Side: " ++ kelly.optimal_side ++ "\n- " ++ kelly.recommendation

/-- statistics_expert (debate.py lines 478-608). -/
noncomputable def statistics_expert (o : Oracle) (s : DebateState) : StagePatch :=
  match o.statsLLM with
  | .ok response =>
    ⟨[⟨"Statistics Expert", "**Statistics Expert**: " ++ statsReport s
        ++ "\n\n---\n\n### Expert Interpretation\n\n" ++ response⟩], none⟩
  | .error e =>
    ⟨[⟨"Statistics Expert", "**Statistics Expert**: (Failed to analyze) " ++ e⟩], none⟩

/-- The per-trader snapshot lines of top_traders_analyst (debate.py lines
627-662), condensed. -/
def tradersReport (s : DebateState) : String :=
  String.intercalate "\n" (s.top_traders.map (fun t =>
    "- " ++ t.name.getD t.address ++ " | Flow: " ++ t.bias
      ++ " | Volume " ++ toString t.total_volume))

/-- top_traders_analyst (debate.py lines 611-689); with no trader data it
returns its no-data message without calling the model. -/
def top_traders_analyst (o : Oracle) (s : DebateState) : StagePatch :=
  if s.top_traders.isEmpty then
    ⟨[⟨"Top Traders Analyst",
      "**Top Traders Analyst**: No top trader data available for this market."⟩], none⟩
  else
    match o.tradersLLM with
    | .ok response =>
      ⟨[⟨"Top Traders Analyst", "**Top Traders Analyst**: ## Top Traders Snapshot\n\n"
          ++ tradersReport s ++ "\n\n---\n\n### Expert Interpretation\n\n" ++ response⟩],
        none⟩
    | .error e =>
      ⟨[⟨"Top Traders Analyst", "**Top Traders Analyst**: (Failed to analyze) " ++ e⟩],
        none⟩

/-- generalist_expert (debate.py lines 691-761).  Query generation and each
search are wrapped in inner try/except: a failed query generation falls back
to a default query and a failed search is skipped, so only the final model
call can raise. -/
def generalist_expert (o : Oracle) (s : DebateState) : StagePatch :=
  if s.market_question = "" then
    ⟨[⟨"Generalist Expert", "**Generalist Expert**: No market question provided."⟩], none⟩
  else
    let queries :=
      match o.genQueryLLM with
      | .ok content =>
        (((content.splitOn "\n").map pyStrip).filter (fun q => q ≠ "")).take 3
      | .error _ => ["latest news " ++ s.market_question]
    let all_results := queries.foldl (fun acc q =>
      match o.genSearch q with
      | .ok res => acc ++ res
      | .error _ => acc) []
    let unique_results := all_results.eraseDups
    let search_context0 := String.intercalate "\n\n" (unique_results.take 5)
    let search_context := if search_context0 = "" then
      "No relevant search results found." else search_context0
    match o.genLLM with
    | .ok response =>
      ⟨[⟨"Generalist Expert", "**Generalist Expert**: " ++ response⟩], none⟩
    | .error e =>
      ⟨[⟨"Generalist Expert", "**Generalist Expert**: (Failed to analyze) " ++ e⟩], none⟩

/-- devils_advocate (debate.py lines 763-792). -/
def devils_advocate (o : Oracle) (s : DebateState) : StagePatch :=
  let context0 := String.intercalate "\n" (s.messages.map (fun m => m.content))
  let context := if context0 = "" then "No previous arguments provided." else context0
  match o.devilsLLM with
  | .ok response =>
    ⟨[⟨"Devils Advocate", "**Devils Advocate**: " ++ response⟩], none⟩
  | .error e =>
    ⟨[⟨"Devils Advocate", "**Devils Advocate**: (Failed to analyze) " ++ e⟩], none⟩

/-- crypto_macro_analyst (debate.py lines 794-813). -/
def crypto_macro_analyst (o : Oracle) (s : DebateState) : StagePatch :=
  match o.cryptoLLM with
  | .ok response =>
    ⟨[⟨"Crypto/Macro Analyst", "**Crypto/Macro Analyst**: " ++ response⟩], none⟩
  | .error e =>
    ⟨[⟨"Crypto/Macro Analyst", "**Crypto/Macro Analyst**: (Failed to analyze) " ++ e⟩],
      none⟩

/-- time_decay_analyst (debate.py lines 816-929); the time report is the
error banner or a condensed metrics block. -/
noncomputable def time_decay_analyst (o : Oracle) (s : DebateState) : StagePatch :=
  let time_metrics := calculate_time_decay_metrics s.market_data.end_date o.now
    s.market_data.price
  let time_report :=
    match time_metrics.error with
    | some err => "## Time Decay Analysis\n\nUnable to analyze: " ++ err
    | none => "## Time Decay & Resolution Analysis\n- Urgency: "
        ++ (time_metrics.urgency.getD "Unknown")
  match o.timeLLM with
  | .ok response =>
    ⟨[⟨"Time Decay Analyst", "**Time Decay Analyst**: " ++ time_report
        ++ "\n\n---\n\n### Expert Interpretation\n\n" ++ response⟩], none⟩
  | .error e =>
    ⟨[⟨"Time Decay Analyst", "**Time Decay Analyst**: (Failed to analyze) " ++ e⟩],
      none⟩

/-- moderator (debate.py lines 932-971): on success the verdict is the raw
response text; on failure a degraded message plus the fixed fallback
verdict. -/
def moderator (o : Oracle) (s : DebateState) : StagePatch :=
  let context0 := String.intercalate "\n" (s.messages.map (fun m => m.content))
  let context := if context0 = "" then "No arguments presented." else context0
  match o.moderatorLLM with
  | .ok response =>
    ⟨[⟨"Moderator", "**Moderator**: " ++ response⟩], some response⟩
  | .error e =>
    ⟨[⟨"Moderator", "**Moderator**: (Failed to reach verdict) " ++ e⟩],
      some "Verdict generation failed."⟩

/-- AGENT_NODES (debate.py lines 976-983). -/
noncomputable def AGENT_NODES : List (String × (Oracle → DebateState → StagePatch)) :=
  [("statistics_expert", statistics_expert),
   ("top_traders_analyst", top_traders_analyst),
   ("generalist_expert", generalist_expert),
   ("devils_advocate", devils_advocate),
   ("crypto_macro_analyst", crypto_macro_analyst),
   ("time_decay_analyst", time_decay_analyst)]

/-- AGENT_ORDER (debate.py lines 987-994). -/
def AGENT_ORDER : List String :=
  ["statistics_expert", "time_decay_analyst", "top_traders_analyst",
   "generalist_expert", "crypto_macro_analyst", "devils_advocate"]

/-- AgentConfig: the boolean flag dict; an absent identifier defaults to
enabled, as config.get(agent, True) does. -/
abbrev AgentConfig := List (String × Bool)

/-- config.get(agent, True) at debate.py line 1014. -/
def configGet (config : AgentConfig) (agent : String) : Bool :=
  match config.lookup agent with
  | some b => b
  | none => true

/-- The node registry lookup AGENT_NODES[agent_name] (debate.py line 1021):
none models a Python KeyError. -/
noncomputable def lookupNode (agent : String) :
    Option (Oracle → DebateState → StagePatch) :=
  AGENT_NODES.lookup agent

/-- The execution plan of the compiled graph: enabled agents filtered from
the canonical order, then the always-added moderator node. -/
def planOf (config : AgentConfig) : List String :=
  AGENT_ORDER.filter (fun agent => configGet config agent) ++ ["moderator"]

/-- build_debate_graph (debate.py lines 997-1043), returning the linear plan
the graph runs; none would model a node-registry KeyError at build time. -/
noncomputable def build_debate_graph (config : AgentConfig) : Option (List String) :=
  let enabled_agents := AGENT_ORDER.filter (fun agent => configGet config agent)
  if enabled_agents.all (fun agent => (lookupNode agent).isSome) then
    some (enabled_agents ++ ["moderator"])
  else none

/-- The stage function the compiled graph runs for a node name (the moderator
node is added separately at debate.py line 1024); unknown names are
unreachable from built plans and contribute nothing. -/
noncomputable def stageFn (agent : String) (o : Oracle) (s : DebateState) : StagePatch :=
  if agent = "moderator" then moderator o s
  else
    match lookupNode agent with
    | some f => f o s
    | none => ⟨[], none⟩

/-- State merge after one stage: add_messages appends the returned messages;
a returned verdict key overwrites the verdict field. -/
def applyPatch (s : DebateState) (p : StagePatch) : DebateState :=
  { s with messages := s.messages ++ p.messages, verdict := p.verdict.getD s.verdict }

/-- Sequential execution of a plan over the shared state (the linear chain
built at debate.py lines 1026-1041). -/
noncomputable def runPlan (o : Oracle) (plan : List String) (s : DebateState) :
    DebateState :=
  plan.foldl (fun st agent => applyPatch st (stageFn agent o st)) s

/-- The display name each stage signs its message with. -/
def displayName (agent : String) : String :=
  if agent = "statistics_expert" then "Statistics Expert"
  else if agent = "time_decay_analyst" then "Time Decay Analyst"
  else if agent = "top_traders_analyst" then "Top Traders Analyst"
  else if agent = "generalist_expert" then "Generalist Expert"
  else if agent = "crypto_macro_analyst" then "Crypto/Macro Analyst"
  else if agent = "devils_advocate" then "Devils Advocate"
  else if agent = "moderator" then "Moderator"
  else agent

theorem statistics_expert_names (o : Oracle) (s : DebateState) :
    (statistics_expert o s).messages.map (fun m => m.name) = ["Statistics Expert"] := by
  cases h : o.statsLLM <;> simp [statistics_expert, h]

theorem time_decay_analyst_names (o : Oracle) (s : DebateState) :
    (time_decay_analyst o s).messages.map (fun m => m.name) = ["Time Decay Analyst"] := by
  cases h : o.timeLLM <;> simp [time_decay_analyst, h]

theorem top_traders_analyst_names (o : Oracle) (s : DebateState) :
    (top_traders_analyst o s).messages.map (fun m => m.name)
      = ["Top Traders Analyst"] := by
  by_cases ht : s.top_traders.isEmpty <;> cases h : o.tradersLLM <;>
    simp [top_traders_analyst, ht, h]

theorem generalist_expert_names (o : Oracle) (s : DebateState) :
    (generalist_expert o s).messages.map (fun m => m.name) = ["Generalist Expert"] := by
  by_cases hq : s.market_question = "" <;> cases h : o.genLLM <;>
    simp [generalist_expert, hq, h]

theorem devils_advocate_names (o : Oracle) (s : DebateState) :
    (devils_advocate o s).messages.map (fun m => m.name) = ["Devils Advocate"] := by
  cases h : o.devilsLLM <;> simp [devils_advocate, h]

theorem crypto_macro_analyst_names (o : Oracle) (s : DebateState) :
    (crypto_macro_analyst o s).messages.map (fun m => m.name)
      = ["Crypto/Macro Analyst"] := by
  cases h : o.cryptoLLM <;> simp [crypto_macro_analyst, h]

theorem moderator_names (o : Oracle) (s : DebateState) :
    (moderator o s).messages.map (fun m => m.name) = ["Moderator"] := by
  cases h : o.moderatorLLM <;> simp [moderator, h]

theorem stageFn_message_names (agent : String)
    (h : agent ∈ AGENT_ORDER ∨ agent = "moderator") (o : Oracle) (s : DebateState) :
    (stageFn agent o s).messages.map (fun m => m.name) = [displayName agent] := by
  rcases h with h | rfl
  · fin_cases h <;>
      simp [stageFn, lookupNode, AGENT_NODES, List.lookup, displayName,
        statistics_expert_names, time_decay_analyst_names, top_traders_analyst_names,
        generalist_expert_names, crypto_macro_analyst_names, devils_advocate_names]
  · simp [stageFn, displayName, moderator_names]

theorem planOf_mem (config : AgentConfig) :
    ∀ a ∈ planOf config, a ∈ AGENT_ORDER ∨ a = "moderator" := by
  intro a ha
  unfold planOf at ha
  rcases List.mem_append.mp ha with h | h
  · exact Or.inl (List.mem_filter.mp h).1
  · exact Or.inr (List.mem_singleton.mp h)

theorem runPlan_names (o : Oracle) (plan : List String)
    (hplan : ∀ a ∈ plan, a ∈ AGENT_ORDER ∨ a = "moderator") (s : DebateState) :
    (runPlan o plan s).messages.map (fun m => m.name)
      = s.messages.map (fun m => m.name) ++ plan.map displayName := by
  induction plan generalizing s with
  | nil => simp [runPlan]
  | cons a rest ih =>
    have hstep : runPlan o (a :: rest) s
        = runPlan o rest (applyPatch s (stageFn a o s)) := rfl
    rw [hstep, ih (fun x hx => hplan x (List.mem_cons_of_mem _ hx))]
    simp [applyPatch, stageFn_message_names a (hplan a (List.mem_cons_self _ _)) o s]

theorem runPlan_verdict (o : Oracle) (config : AgentConfig) (s : DebateState) :
    (runPlan o (planOf config) s).verdict
      = match o.moderatorLLM with
        | .ok r => r
        | .error _ => "Verdict generation failed." := by
  unfold planOf runPlan
  rw [List.foldl_append]
  simp only [List.foldl_cons, List.foldl_nil]
  cases h : o.moderatorLLM <;> simp [applyPatch, stageFn, moderator, h]

theorem build_eq_plan (config : AgentConfig) :
    build_debate_graph config = some (planOf config) := by
  have hall : ∀ a ∈ AGENT_ORDER, (lookupNode a).isSome = true := by
    intro a ha
    fin_cases ha <;> simp [lookupNode, AGENT_NODES, List.lookup]
  have hcond : (AGENT_ORDER.filter (fun agent => configGet config agent)).all
      (fun agent => (lookupNode agent).isSome) = true := by
    apply List.all_eq_true.mpr
    intro a ha
    exact hall a (List.mem_filter.mp ha).1
  unfold build_debate_graph planOf
  simp [hcond]

/-- C2: build_debate_graph yields the canonical order filtered to the enabled
identifiers (absent identifiers default to enabled), with the moderator
appended last, no identifier twice; only devils_advocate enabled gives
[devils_advocate, moderator], all disabled gives [moderator]; and equal
enabled sets give equal plans. -/
theorem build_debate_graph_plan (config : AgentConfig) :
    build_debate_graph config
      = some (AGENT_ORDER.filter (fun a => configGet config a) ++ ["moderator"])
    ∧ (planOf config).Nodup
    ∧ build_debate_graph
        [("statistics_expert", false), ("time_decay_analyst", false),
         ("top_traders_analyst", false), ("generalist_expert", false),
         ("crypto_macro_analyst", false), ("devils_advocate", true)]
        = some ["devils_advocate", "moderator"]
    ∧ build_debate_graph
        [("statistics_expert", false), ("time_decay_analyst", false),
         ("top_traders_analyst", false), ("generalist_expert", false),
         ("crypto_macro_analyst", false), ("devils_advocate", false)]
        = some ["moderator"]
    ∧ (∀ c2 : AgentConfig, (∀ a ∈ AGENT_ORDER, configGet config a = configGet c2 a) →
        planOf config = planOf c2) := by
  refine ⟨build_eq_plan config, ?_, ?_, ?_, ?_⟩
  · unfold planOf
    apply List.Nodup.append
    · exact List.Nodup.filter _ (by decide)
    · exact List.nodup_singleton _
    · intro a ha hb
      have h1 : a ∈ AGENT_ORDER := (List.mem_filter.mp ha).1
      have h2 : a = "moderator" := List.mem_singleton.mp hb
      subst h2
      revert h1
      decide
  · rw [build_eq_plan]
    exact congrArg some (by decide)
  · rw [build_eq_plan]
    exact congrArg some (by decide)
  · intro c2 hagree
    unfold planOf
    rw [List.filter_congr (fun a ha => hagree a ha)]

theorem build_debate_graph_plan_witness :
    (∀ a ∈ AGENT_ORDER, configGet [] a = configGet [("unknown_agent", true)] a)
    ∧ planOf [] = planOf [("unknown_agent", true)] :=
  ⟨by decide,
    (build_debate_graph_plan []).2.2.2.2 [("unknown_agent", true)] (by decide)⟩

/-- C9 (counterexample): a configuration containing a stage identifier not
known to the registry builds a plan successfully instead of raising — the
unknown identifier is silently ignored and the full default plan results. -/
theorem unknown_stage_id_counterexample :
    build_debate_graph [("unknown_agent", true)]
      = some ["statistics_expert", "time_decay_analyst", "top_traders_analyst",
              "generalist_expert", "crypto_macro_analyst", "devils_advocate",
              "moderator"]
    ∧ (build_debate_graph [("unknown_agent", true)]).isSome = true := by
  have h := build_eq_plan [("unknown_agent", true)]
  refine ⟨?_, ?_⟩
  · rw [h]
    exact congrArg some (by decide)
  · rw [h]
    rfl

/-- C9 (amended): plan construction never fails at build time; a
configuration mentioning an unknown stage identifier is not rejected — the
plan is always built, from the known canonical identifiers only. -/
theorem unknown_stage_id_amended (config : AgentConfig) :
    build_debate_graph config = some (planOf config)
    ∧ (build_debate_graph config).isSome = true := by
  refine ⟨build_eq_plan config, ?_⟩
  rw [build_eq_plan config]
  rfl

/-- C3: whenever the moderator body raises, the stage still returns the
degraded Moderator contribution and sets the fixed fallback verdict instead
of propagating; and in every case the moderator patch carries a verdict. -/
theorem moderator_always_verdict (o : Oracle) (s : DebateState) :
    (∀ e, o.moderatorLLM = .error e →
      moderator o s
        = ⟨[⟨"Moderator", "**Moderator**: (Failed to reach verdict) " ++ e⟩],
          some "Verdict generation failed."⟩)
    ∧ (moderator o s).verdict.isSome = true := by
  constructor
  · intro e he
    simp [moderator, he]
  · cases h : o.moderatorLLM <;> simp [moderator, h]

/-- An all-success oracle returning the same text everywhere. -/
def okOracle (r : String) : Oracle :=
  ⟨.ok r, .ok r, .ok r, .ok r, fun _ => .ok [], .ok r, .ok r, .ok r, .ok r, 0⟩

/-- A minimal debate state: no prior messages, empty verdict. -/
def sampleState : DebateState :=
  ⟨[], ⟨"q", 50, 0, 0, 0, .missing⟩, "q", "", [], [], []⟩

theorem moderator_always_verdict_witness :
    ({ okOracle "" with moderatorLLM := .error "down" } : Oracle).moderatorLLM
      = .error "down"
    ∧ moderator { okOracle "" with moderatorLLM := .error "down" } sampleState
        = ⟨[⟨"Moderator", "**Moderator**: (Failed to reach verdict) " ++ "down"⟩],
          some "Verdict generation failed."⟩ :=
  ⟨rfl,
    (moderator_always_verdict { okOracle "" with moderatorLLM := .error "down" }
      sampleState).1 "down" rfl⟩

/-- C1 (amended): for every configuration, state and oracle, the run appends
exactly one contribution per planned stage, each authored with the stage's
display name; a stage whose body raises contributes the degraded message
naming the stage and carrying the error text (top_traders_analyst and
generalist_expert reach their model call only past their early returns); the
verdict is the moderator's response text when synthesis succeeds — hence
empty exactly when that text is empty — and the fixed non-empty fallback
when synthesis fails. -/
theorem stage_isolation_amended (config : AgentConfig) (o : Oracle) (s : DebateState) :
    ((runPlan o (planOf config) s).messages.map (fun m => m.name)
        = s.messages.map (fun m => m.name) ++ (planOf config).map displayName)
    ∧ (runPlan o (planOf config) s).messages.length
        = s.messages.length + (planOf config).length
    ∧ (∀ e s2, o.statsLLM = .error e → statistics_expert o s2
        = ⟨[⟨"Statistics Expert", "**Statistics Expert**: (Failed to analyze) " ++ e⟩],
          none⟩)
    ∧ (∀ e s2, o.timeLLM = .error e → time_decay_analyst o s2
        = ⟨[⟨"Time Decay Analyst", "**Time Decay Analyst**: (Failed to analyze) " ++ e⟩],
          none⟩)
    ∧ (∀ e s2, o.tradersLLM = .error e → s2.top_traders.isEmpty = false →
        top_traders_analyst o s2
          = ⟨[⟨"Top Traders Analyst",
              "**Top Traders Analyst**: (Failed to analyze) " ++ e⟩], none⟩)
    ∧ (∀ e s2, o.genLLM = .error e → s2.market_question ≠ "" →
        generalist_expert o s2
          = ⟨[⟨"Generalist Expert", "**Generalist Expert**: (Failed to analyze) " ++ e⟩],
            none⟩)
    ∧ (∀ e s2, o.devilsLLM = .error e → devils_advocate o s2
        = ⟨[⟨"Devils Advocate", "**Devils Advocate**: (Failed to analyze) " ++ e⟩],
          none⟩)
    ∧ (∀ e s2, o.cryptoLLM = .error e → crypto_macro_analyst o s2
        = ⟨[⟨"Crypto/Macro Analyst",
            "**Crypto/Macro Analyst**: (Failed to analyze) " ++ e⟩], none⟩)
    ∧ (∀ e s2, o.moderatorLLM = .error e → moderator o s2
        = ⟨[⟨"Moderator", "**Moderator**: (Failed to reach verdict) " ++ e⟩],
          some "Verdict generation failed."⟩)
    ∧ (∀ e, o.moderatorLLM = .error e →
        (runPlan o (planOf config) s).verdict = "Verdict generation failed.")
    ∧ (∀ r, o.moderatorLLM = .ok r → (runPlan o (planOf config) s).verdict = r) := by
  have hnames := runPlan_names o (planOf config) (planOf_mem config) s
  have hverdict := runPlan_verdict o config s
  refine ⟨hnames, ?_, ?_, ?_, ?_, ?_, ?_, ?_, ?_, ?_, ?_⟩
  · have h2 := congrArg List.length hnames
    simpa using h2
  · intro e s2 he
    simp [statistics_expert, he]
  · intro e s2 he
    simp [time_decay_analyst, he]
  · intro e s2 he ht
    simp [top_traders_analyst, he, ht]
  · intro e s2 he hq
    simp [generalist_expert, he, hq]
  · intro e s2 he
    simp [devils_advocate, he]
  · intro e s2 he
    simp [crypto_macro_analyst, he]
  · intro e s2 he
    simp [moderator, he]
  · intro e he
    rw [hverdict, he]
  · intro r hr
    rw [hverdict, hr]

/-- An oracle whose statistics call raises while every other call succeeds
with empty response text. -/
def sampleOracle : Oracle := { okOracle "" with statsLLM := .error "boom" }

/-- C1 (counterexample): with the default configuration, a raising
statistics stage and an otherwise successful run whose moderator returns
empty text, the run still yields one contribution per planned stage but the
verdict is the empty string — not a non-empty verdict as claimed. -/
theorem stage_isolation_counterexample :
    sampleOracle.statsLLM = .error "boom"
    ∧ (runPlan sampleOracle (planOf []) sampleState).messages.length
        = (planOf []).length
    ∧ (runPlan sampleOracle (planOf []) sampleState).verdict = "" := by
  refine ⟨rfl, ?_, ?_⟩
  · have h := runPlan_names sampleOracle (planOf []) (planOf_mem []) sampleState
    have h2 := congrArg List.length h
    simpa [sampleState] using h2
  · have h := runPlan_verdict sampleOracle [] sampleState
    simpa [sampleOracle, okOracle] using h

theorem stage_isolation_witness :
    sampleOracle.statsLLM = .error "boom"
    ∧ statistics_expert sampleOracle sampleState
        = ⟨[⟨"Statistics Expert", "**Statistics Expert**: (Failed to analyze) "
            ++ "boom"⟩], none⟩
    ∧ (runPlan sampleOracle (planOf []) sampleState).verdict = "" :=
  ⟨rfl,
    (stage_isolation_amended [] sampleOracle sampleState).2.2.1 "boom" sampleState rfl,
    (stage_isolation_amended [] sampleOracle sampleState).2.2.2.2.2.2.2.2.2.2 "" rfl⟩
